import Mathlib

/-!
Verification of the core transaction coordinator of the vanilla-icecream
repository: a shallow embedding of the coordinator of
`pkg/txn/transaction.go` (state machine, Read/Write/Delete, Commit, Abort),
of the local hybrid clock of `pkg/timesource`, of the HTTP facade router and
handlers of `datastore.go`, and of the Redis connector ConditionalUpdate
contract.

Backend calls (participant Prepare/Commit/Abort, CreateTSR/WriteTSR/
DeleteTSR, the clock) are modelled by an explicit environment that fixes the
outcome of every external call up front; the coordinator control flow is
then a pure function from the transaction record and that environment to a
result and a trace of the external actions it performed, in program order.
-/

namespace VanillaIcecream

/-- Transaction / record states, from `config` (mirrored in `datastore.go`:
EMPTY, STARTED, PREPARED, COMMITTED, ABORTED). -/
inductive State where
  | EMPTY
  | STARTED
  | PREPARED
  | COMMITTED
  | ABORTED
deriving DecidableEq, Repr

/-- Modelled from the spec: the `StateMachine` embedded in `Transaction`
(`SetState`, `CheckState`, `GetState`) is declared and used in
`pkg/txn/transaction.go` but its implementation is not under src/.
Spec section 4.4 fixes the transitions: EMPTY to STARTED on Start, STARTED
to COMMITTED on successful Commit, STARTED to ABORTED on Abort or on failure
during Commit, COMMITTED to ABORTED only via the racing-TSR path, ABORTED
terminal. -/
def allowedTransition : State → State → Bool
  | State.EMPTY, State.STARTED => true
  | State.STARTED, State.COMMITTED => true
  | State.STARTED, State.ABORTED => true
  | State.COMMITTED, State.ABORTED => true
  | _, _ => false

/-- Modelled from the spec: `SetState` performs a transition of the state
machine of spec section 4.4, failing with a state-violation error on any
transition not listed there. -/
def SetState (cur target : State) : Except String State :=
  if allowedTransition cur target then Except.ok target
  else Except.error "state violation"

/-- Modelled from the spec: `CheckState` fails with a state-violation error
unless the current state is the expected one ("Any operation invoked in a
state other than STARTED after Start() fails with a state-violation
error"). -/
def CheckState (cur expected : State) : Except String Unit :=
  if cur = expected then Except.ok () else Except.error "state violation"

/-- The in-memory `Transaction` of `pkg/txn/transaction.go` (the fields the
coordinator control flow reads or writes; the datastore map is kept as the
list of participant names in iteration order). -/
structure Transaction where
  txnId : String
  txnStartTime : Int
  txnCommitTime : Int
  state : State
  isReadOnly : Bool
  writeCount : Nat
  dataStoreMap : List String
deriving DecidableEq, Repr

/-- Values of `config.Config.AsyncLevel` (`zero` is the default branch of
`Transaction.Commit`; the code tests for AsyncLevelTwo first, then
AsyncLevelOne). -/
inductive AsyncLevel where
  | zero
  | one
  | two
deriving DecidableEq, Repr

/-- Outcomes of every external call `Transaction.Commit` can make, fixed up
front: the commit-timestamp fetch, the `Prepare()` result of each
participant (`none` means success), `CreateTSR`, the `Commit()` result of
each participant and `DeleteTSR` (the last two are discarded by the code and
are present only so that theorems can quantify over them), and the
configured async level. -/
structure CommitEnv where
  commitTime : Except String Int
  prepareErr : String → Option String
  createTSRErr : Option String
  commitErr : String → Option String
  deleteTSRErr : Option String
  asyncLevel : AsyncLevel

/-- One external action performed by `Transaction.Commit`, in program order.
`abortAsync` records `go t.Abort()`; the `async` flags on the commit-phase
actions record whether the call happens on a fire-and-forget goroutine
(`true`) or is awaited before `Commit` returns (`false`). -/
inductive Action where
  | getTimeCall
  | prepareCall (ds : String)
  | createTSRCall (txnId : String) (st : State)
  | abortAsync
  | commitCall (ds : String) (async : Bool)
  | deleteTSRCall (async : Bool)
deriving DecidableEq, Repr

/-- Result of `Transaction.Commit`: the updated transaction, the returned
error (`none` = nil), and the trace of external actions. -/
structure CommitResult where
  txn : Transaction
  result : Option String
  trace : List Action
deriving DecidableEq, Repr

/-- The `success, cause = false, err` accumulation of the prepare loop in
`Transaction.Commit`: each failing participant overwrites `cause`, so the
final `cause` is the last error in iteration order (`none` iff the
`Prepare()` of every participant succeeded, i.e. `success` stayed true). -/
def prepareFold (prepareErr : String → Option String) (dss : List String) :
    Option String :=
  dss.foldl
    (fun cause ds =>
      match prepareErr ds with
      | some e => some e
      | none => cause)
    none

/-- Embedding of `Transaction.Commit` of `pkg/txn/transaction.go`: set state
to COMMITTED; read-only fast path; fetch the commit timestamp; prepare phase
over all participants (no early exit, last error wins); on failure
`go t.Abort()` and return "prepare phase failed: " + cause; sync point
`CreateTSR(TxnId, COMMITTED)`, on failure `go t.Abort()` and return
"transaction is aborted by other transaction"; then the commit phase, whose
placement of the participant commits and of `DeleteTSR` (awaited or
fire-and-forget) depends on `config.Config.AsyncLevel`; the participant
`Commit()` errors and the `DeleteTSR` error are discarded. -/
def Transaction.Commit (t : Transaction) (env : CommitEnv) : CommitResult :=
  match SetState t.state State.COMMITTED with
  | Except.error e => { txn := t, result := some e, trace := [] }
  | Except.ok st =>
    let t1 : Transaction := { t with state := st }
    if t1.isReadOnly then
      { txn := t1, result := none, trace := [] }
    else
      match env.commitTime with
      | Except.error e =>
        { txn := t1, result := some e, trace := [Action.getTimeCall] }
      | Except.ok ct =>
        let t2 : Transaction := { t1 with txnCommitTime := ct }
        let prepTrace := t2.dataStoreMap.map Action.prepareCall
        match prepareFold env.prepareErr t2.dataStoreMap with
        | some cause =>
          { txn := t2
            result := some ("prepare phase failed: " ++ cause)
            trace := Action.getTimeCall :: prepTrace ++ [Action.abortAsync] }
        | none =>
          match env.createTSRErr with
          | some _ =>
            { txn := t2
              result := some "transaction is aborted by other transaction"
              trace := Action.getTimeCall :: prepTrace ++
                [Action.createTSRCall t2.txnId State.COMMITTED,
                 Action.abortAsync] }
          | none =>
            let base := Action.getTimeCall :: prepTrace ++
              [Action.createTSRCall t2.txnId State.COMMITTED]
            match env.asyncLevel with
            | AsyncLevel.two =>
              { txn := t2
                result := none
                trace := base ++
                  t2.dataStoreMap.map (fun ds => Action.commitCall ds true) ++
                  [Action.deleteTSRCall true] }
            | AsyncLevel.one =>
              { txn := t2
                result := none
                trace := base ++
                  t2.dataStoreMap.map (fun ds => Action.commitCall ds false) ++
                  [Action.deleteTSRCall true] }
            | AsyncLevel.zero =>
              { txn := t2
                result := none
                trace := base ++
                  t2.dataStoreMap.map (fun ds => Action.commitCall ds false) ++
                  [Action.deleteTSRCall false] }

/-- Result of `Transaction.Read` / `Write` / `Delete`: the updated
transaction, the returned error (`none` = nil), and whether the call was
dispatched to the named datastore. -/
structure OpResult where
  txn : Transaction
  result : Option String
  dispatched : Bool
deriving DecidableEq, Repr

/-- Embedding of `Transaction.Read`: check the state is STARTED, then
dispatch to the named datastore (whose outcome `dsRead` the environment
supplies), or return "datastore not found". -/
def Transaction.Read (t : Transaction) (dsName : String)
    (dsRead : Option String) : OpResult :=
  match CheckState t.state State.STARTED with
  | Except.error e => { txn := t, result := some e, dispatched := false }
  | Except.ok _ =>
    if t.dataStoreMap.contains dsName then
      { txn := t, result := dsRead, dispatched := true }
    else
      { txn := t, result := some "datastore not found", dispatched := false }

/-- Embedding of `Transaction.Write`: check the state is STARTED; then
(before the map lookup) set `isReadOnly = false` and increment `writeCount`;
then dispatch to the named datastore or return "datastore not found". -/
def Transaction.Write (t : Transaction) (dsName : String)
    (dsWrite : Option String) : OpResult :=
  match CheckState t.state State.STARTED with
  | Except.error e => { txn := t, result := some e, dispatched := false }
  | Except.ok _ =>
    let t1 : Transaction :=
      { t with isReadOnly := false, writeCount := t.writeCount + 1 }
    if t1.dataStoreMap.contains dsName then
      { txn := t1, result := dsWrite, dispatched := true }
    else
      { txn := t1, result := some "datastore not found", dispatched := false }

/-- Embedding of `Transaction.Delete`: like `Write` it sets
`isReadOnly = false` before the map lookup, but it does not touch
`writeCount`. -/
def Transaction.Delete (t : Transaction) (dsName : String)
    (dsDelete : Option String) : OpResult :=
  match CheckState t.state State.STARTED with
  | Except.error e => { txn := t, result := some e, dispatched := false }
  | Except.ok _ =>
    let t1 : Transaction := { t with isReadOnly := false }
    if t1.dataStoreMap.contains dsName then
      { txn := t1, result := dsDelete, dispatched := true }
    else
      { txn := t1, result := some "datastore not found", dispatched := false }

/-- Outcomes of the external calls `Transaction.Abort` makes; both are
discarded by the code (the `WriteTSR` return value is not even inspected,
and participant `Abort` errors are only logged), and are present so that
theorems can quantify over them. -/
structure AbortEnv where
  writeTSRErr : Option String
  abortErr : String → Option String

/-- One external action performed by `Transaction.Abort`, in program
order. -/
inductive AbortAction where
  | writeTSRCall (txnId : String) (st : State)
  | dsAbortCall (ds : String) (hasCommitted : Bool)
deriving DecidableEq, Repr

/-- Result of `Transaction.Abort`. -/
structure AbortResult where
  txn : Transaction
  result : Option String
  trace : List AbortAction
deriving DecidableEq, Repr

/-- Embedding of `Transaction.Abort` of `pkg/txn/transaction.go`: remember
the last state, set the state to ABORTED (propagating the state-machine
error), compute `hasCommitted = (lastState == COMMITTED)`, write an ABORTED
TSR (result discarded), call `Abort(hasCommitted)` on every participant
(errors logged), and return nil. -/
def Transaction.Abort (t : Transaction) (_env : AbortEnv) : AbortResult :=
  let lastState := t.state
  match SetState t.state State.ABORTED with
  | Except.error e => { txn := t, result := some e, trace := [] }
  | Except.ok st =>
    let t1 : Transaction := { t with state := st }
    let hasCommitted := lastState = State.COMMITTED
    { txn := t1
      result := none
      trace := AbortAction.writeTSRCall t.txnId State.ABORTED ::
        t.dataStoreMap.map (fun ds => AbortAction.dsAbortCall ds hasCommitted) }

/-! ## Local hybrid clock (`pkg/timesource`, `LocalTimeSource.GetTime`) -/

/-- Field `logicalTimeBits` of `NewLocalTimeSource`. -/
def logicalTimeBits : Nat := 6

/-- Field `maxLogicalTime = 2^logicalTimeBits - 1 = 63`. -/
def maxLogicalTime : Int := (1 <<< (logicalTimeBits : Nat) : Nat) - 1

/-- The mutable state of a `LocalTimeSource`: physical milliseconds and the
logical counter, both int64 in the source. -/
structure LocalTimeSource where
  physicalTime : Int
  logicalTime : Int
deriving DecidableEq, Repr

/-- Embedding of `LocalTimeSource.GetTime` of `pkg/timesource`, with the
wall-clock reading `time.Now().UnixMilli()` supplied as the argument
`wallMilli`: if the logical counter has reached `maxLogicalTime - 10`,
refresh the physical time from the wall clock and reset the counter to 0;
increment the counter; return
`physicalTime * 10^logicalTimeBits + logicalTime` (note the source packs the
fields with `math.Pow10`, a decimal shift, not a binary one). -/
def LocalTimeSource.getTime (ts : LocalTimeSource) (wallMilli : Int) :
    Int × LocalTimeSource :=
  let ts1 : LocalTimeSource :=
    if ts.logicalTime ≥ maxLogicalTime - 10 then
      { physicalTime := wallMilli, logicalTime := 0 }
    else ts
  let ts2 : LocalTimeSource := { ts1 with logicalTime := ts1.logicalTime + 1 }
  (ts2.physicalTime * (10 : Int) ^ logicalTimeBits + ts2.logicalTime, ts2)

/-- Run a sequence of `GetTime` calls on one `LocalTimeSource` instance; the
list supplies the wall-clock reading each call would observe. -/
def runClock (ts : LocalTimeSource) (walls : List Int) : List Int :=
  match walls with
  | [] => []
  | w :: ws =>
    let p := ts.getTime w
    p.1 :: runClock p.2 ws

/-! ## Redis connector `ConditionalUpdate`
(`pkg/datastore/redis`, contract of spec section 4.2) -/

/-- The versioned record envelope persisted per key (the fields
`ConditionalUpdate` inspects or rewrites; `Version` is a string holding a
numeric counter in the source, incremented via `util.AddToString`, modelled
by its numeric content). -/
structure DataItem where
  key : String
  value : String
  version : Nat
deriving DecidableEq, Repr

/-- A backend store as an association list from keys to records. -/
def Store := List (String × DataItem)

/-- Look a key up in a store. -/
def storeGet (store : Store) (key : String) : Option DataItem :=
  match store with
  | [] => none
  | (k, it) :: rest => if k = key then some it else storeGet rest key

/-- Replace the record held at a key (leaving the store unchanged when the
key is absent). -/
def storeSet (store : Store) (key : String) (item : DataItem) : Store :=
  match store with
  | [] => []
  | (k, it) :: rest =>
    if k = key then (k, item) :: rest else (k, it) :: storeSet rest key item

/-- Modelled from the spec: `RedisConnection.ConditionalUpdate` (its Lua
script implementation is not under src/; only its tests are). Spec section
4.2 gives the contract and `TestRedisConnectionConditionalUpdateDoCreate`
pins the branches: with `doCreate = true` the call is an atomic
insert-if-absent that fails with "version mismatch" whenever a record
already exists (the test expects that failure even though the stored and
supplied versions are equal); with `doCreate = false` an existing record is
replaced iff its stored version equals the version of the supplied item, the
stored version becoming `version + 1`, which is also returned; an absent
record with `doCreate = false` fails with "version mismatch"; every failure
leaves the store unchanged. -/
def ConditionalUpdate (store : Store) (key : String) (item : DataItem)
    (doCreate : Bool) : Except String (Nat × Store) :=
  match storeGet store key with
  | none =>
    if doCreate then
      let newItem : DataItem := { item with version := item.version + 1 }
      Except.ok (newItem.version, (key, newItem) :: store)
    else
      Except.error "version mismatch"
  | some stored =>
    if doCreate then
      Except.error "version mismatch"
    else if stored.version = item.version then
      let newItem : DataItem := { item with version := item.version + 1 }
      Except.ok (newItem.version, storeSet store key newItem)
    else
      Except.error "version mismatch"

/-! ## Remote facade (`datastore.go`, `Server.Run` and the handlers) -/

/-- An HTTP response as the facade produces it: the status code, and either
a plain-text body (`ctx.Error` / the ping reply) or a JSON body carrying
`Status` and `ErrMsg`. -/
structure HttpResponse where
  statusCode : Nat
  bodyStatus : String
  bodyErrMsg : String
  plainBody : String
deriving DecidableEq, Repr

/-- A request to the facade together with the outcome of the work a handler
would do with it: whether the JSON body unmarshals, and the result of the
underlying reader/committer call (`Except.error` is a handler-level error,
`Except.ok` carries the payload already serialized). -/
structure FacadeRequest where
  path : String
  parseOk : Bool
  handlerResult : Except String String

/-- Embedding of `Server.readHandler`: a body that fails to unmarshal is
answered with `ctx.Error(..., 400)`; otherwise the reader error goes into a
200 JSON body with Status "Error" and the message in ErrMsg, and success
into Status "OK". -/
def readHandler (parseOk : Bool) (result : Except String String) :
    HttpResponse :=
  if parseOk then
    match result with
    | Except.error e =>
      { statusCode := 200, bodyStatus := "Error", bodyErrMsg := e,
        plainBody := "" }
    | Except.ok _ =>
      { statusCode := 200, bodyStatus := "OK", bodyErrMsg := "",
        plainBody := "" }
  else
    { statusCode := 400, bodyStatus := "", bodyErrMsg := "",
      plainBody := "Invalid timestamp parameter" }

/-- Embedding of `Server.prepareHandler`, same shape as `readHandler` around
`committer.Prepare`. -/
def prepareHandler (parseOk : Bool) (result : Except String String) :
    HttpResponse :=
  if parseOk then
    match result with
    | Except.error e =>
      { statusCode := 200, bodyStatus := "Error", bodyErrMsg := e,
        plainBody := "" }
    | Except.ok _ =>
      { statusCode := 200, bodyStatus := "OK", bodyErrMsg := "",
        plainBody := "" }
  else
    { statusCode := 400, bodyStatus := "", bodyErrMsg := "",
      plainBody := "Invalid prepare request body" }

/-- Embedding of `Server.commitHandler`, same shape around
`committer.Commit`. -/
def commitHandler (parseOk : Bool) (result : Except String String) :
    HttpResponse :=
  if parseOk then
    match result with
    | Except.error e =>
      { statusCode := 200, bodyStatus := "Error", bodyErrMsg := e,
        plainBody := "" }
    | Except.ok _ =>
      { statusCode := 200, bodyStatus := "OK", bodyErrMsg := "",
        plainBody := "" }
  else
    { statusCode := 400, bodyStatus := "", bodyErrMsg := "",
      plainBody := "Invalid commit request body." }

/-- Embedding of `Server.abortHandler`, same shape around
`committer.Abort`. -/
def abortHandler (parseOk : Bool) (result : Except String String) :
    HttpResponse :=
  if parseOk then
    match result with
    | Except.error e =>
      { statusCode := 200, bodyStatus := "Error", bodyErrMsg := e,
        plainBody := "" }
    | Except.ok _ =>
      { statusCode := 200, bodyStatus := "OK", bodyErrMsg := "",
        plainBody := "" }
  else
    { statusCode := 400, bodyStatus := "", bodyErrMsg := "",
      plainBody := "Invalid abort request body." }

/-- The router of `Server.Run`: switch on the exact path over /ping, /read,
/prepare, /commit, /abort, answering every other path with
`ctx.Error("Unsupported path", 404)`. -/
def serverRoute (req : FacadeRequest) : HttpResponse :=
  if req.path = "/ping" then
    { statusCode := 200, bodyStatus := "", bodyErrMsg := "",
      plainBody := "pong" }
  else if req.path = "/read" then readHandler req.parseOk req.handlerResult
  else if req.path = "/prepare" then
    prepareHandler req.parseOk req.handlerResult
  else if req.path = "/commit" then commitHandler req.parseOk req.handlerResult
  else if req.path = "/abort" then abortHandler req.parseOk req.handlerResult
  else
    { statusCode := 404, bodyStatus := "", bodyErrMsg := "",
      plainBody := "Unsupported path" }

/-! ## Concrete inputs used by the closed theorems below -/

/-- A started two-participant writing transaction (for C1). -/
def txnC1 : Transaction := {
  txnId := "txn-c1", txnStartTime := 10, txnCommitTime := 0,
  state := State.STARTED, isReadOnly := false, writeCount := 1,
  dataStoreMap := ["Redis", "MongoDB"] }

/-- An environment for C1 in which every prepare succeeds but `CreateTSR`
fails because a TSR already occupies the slot. -/
def envC1 : CommitEnv := {
  commitTime := Except.ok 100,
  prepareErr := fun _ => none,
  createTSRErr := some "key exists",
  commitErr := fun _ => none,
  deleteTSRErr := none,
  asyncLevel := AsyncLevel.zero }

/-- A started two-participant writing transaction (for C2). -/
def txnC2 : Transaction := {
  txnId := "txn-c2", txnStartTime := 10, txnCommitTime := 0,
  state := State.STARTED, isReadOnly := false, writeCount := 2,
  dataStoreMap := ["A", "B"] }

/-- An environment for C2 in which both participants fail Prepare, with
distinct error messages. -/
def envC2 : CommitEnv := {
  commitTime := Except.ok 100,
  prepareErr := fun ds =>
    if ds = "A" then some "errA" else if ds = "B" then some "errB" else none,
  createTSRErr := none,
  commitErr := fun _ => none,
  deleteTSRErr := none,
  asyncLevel := AsyncLevel.zero }

/-- A started single-participant writing transaction (for C3). -/
def txnC3 : Transaction := {
  txnId := "txn-c3", txnStartTime := 10, txnCommitTime := 0,
  state := State.STARTED, isReadOnly := false, writeCount := 1,
  dataStoreMap := ["Redis"] }

/-- An environment for C3 in which the sync point succeeds while the
participant commit and the TSR deletion both fail. -/
def envC3 : CommitEnv := {
  commitTime := Except.ok 100,
  prepareErr := fun _ => none,
  createTSRErr := none,
  commitErr := fun _ => some "participant commit failed",
  deleteTSRErr := some "delete tsr failed",
  asyncLevel := AsyncLevel.zero }

/-- A started read-only transaction (for C4). -/
def txnC4 : Transaction := {
  txnId := "txn-c4", txnStartTime := 10, txnCommitTime := 0,
  state := State.STARTED, isReadOnly := true, writeCount := 0,
  dataStoreMap := ["Redis"] }

/-- An environment for C4 in which every external call would fail, showing
the read-only fast path touches none of them. -/
def envC4 : CommitEnv := {
  commitTime := Except.error "oracle unreachable",
  prepareErr := fun _ => some "prepare would fail",
  createTSRErr := some "create tsr would fail",
  commitErr := fun _ => none,
  deleteTSRErr := none,
  asyncLevel := AsyncLevel.zero }

/-- A started two-participant transaction (for C6). -/
def txnC6 : Transaction := {
  txnId := "txn-c6", txnStartTime := 10, txnCommitTime := 0,
  state := State.STARTED, isReadOnly := false, writeCount := 1,
  dataStoreMap := ["Redis", "MongoDB"] }

/-- An environment for C6 in which both the TSR write and the participant
aborts fail, showing the errors are swallowed. -/
def envC6 : AbortEnv := {
  writeTSRErr := some "write tsr failed",
  abortErr := fun _ => some "participant abort failed" }

/-- An already-aborted transaction (for C8). -/
def txnC8 : Transaction := {
  txnId := "txn-c8", txnStartTime := 0, txnCommitTime := 0,
  state := State.ABORTED, isReadOnly := false, writeCount := 1,
  dataStoreMap := ["Redis"] }

/-- A facade request to an unknown path (for C9). -/
def reqC9bad : FacadeRequest := {
  path := "/unknown", parseOk := true, handlerResult := Except.ok "pong" }

/-- A well-formed read request whose handler fails (for C9). -/
def reqC9err : FacadeRequest := {
  path := "/read", parseOk := true, handlerResult := Except.error "key not found" }

/-- A started transaction holding only the participant "Redis" with no
buffered writes (for C10). -/
def txnC10 : Transaction := {
  txnId := "txn-c10", txnStartTime := 10, txnCommitTime := 0,
  state := State.STARTED, isReadOnly := true, writeCount := 0,
  dataStoreMap := ["Redis"] }

/-- An environment for C10 in which the full commit path succeeds. -/
def envC10 : CommitEnv := {
  commitTime := Except.ok 100,
  prepareErr := fun _ => none,
  createTSRErr := none,
  commitErr := fun _ => none,
  deleteTSRErr := none,
  asyncLevel := AsyncLevel.zero }

/-- The stored record of `TestRedisConnectionConditionalUpdateDoCreate`
(for C5). -/
def dbItemC5 : DataItem := { key := "item1", value := "item1-db", version := 1 }

/-- The incoming record of `TestRedisConnectionConditionalUpdateDoCreate`,
carrying the same version as the stored one (for C5). -/
def cacheItemC5 : DataItem := {
  key := "item1", value := "item1-cache", version := 1 }

/-! ## Theorems -/

/-- Helper: folding the last-error accumulator over a list of participants
whose prepares all succeed leaves the accumulator unchanged. -/
theorem foldl_cause_of_all_none (pe : String → Option String) :
    ∀ (dss : List String) (acc : Option String), (∀ ds ∈ dss, pe ds = none) →
      dss.foldl
        (fun cause ds =>
          match pe ds with
          | some e => some e
          | none => cause)
        acc = acc := by
  intro dss
  induction dss with
  | nil => intro acc _; rfl
  | cons d rest ih =>
    intro acc h
    have hd : pe d = none := h d (List.mem_cons_self d rest)
    have hr : ∀ ds ∈ rest, pe ds = none :=
      fun ds hds => h ds (List.mem_cons_of_mem d hds)
    simp only [List.foldl_cons, hd]
    exact ih acc hr

/-- Helper: when the `Prepare()` of every participant succeeds, the recorded
cause stays `none` (the prepare phase is treated as successful). -/
theorem prepareFold_eq_none (pe : String → Option String) (dss : List String)
    (h : ∀ ds ∈ dss, pe ds = none) : prepareFold pe dss = none :=
  foldl_cause_of_all_none pe dss none h

/-- C1: for every transaction whose prepare phase succeeds on all
participants, `Transaction.Commit` invokes `CreateTSR(TxnId, COMMITTED)` as
the sync point; if `CreateTSR` returns an error, `Commit` starts an `Abort`
asynchronously and returns an error to the caller without performing any
participant commit; if `CreateTSR` succeeds, `Commit` returns nil (the
successful `CreateTSR` is the commit point). -/
theorem commit_sync_point (t : Transaction) (env : CommitEnv) (ct : Int)
    (hs : t.state = State.STARTED) (hro : t.isReadOnly = false)
    (hct : env.commitTime = Except.ok ct)
    (hp : ∀ ds ∈ t.dataStoreMap, env.prepareErr ds = none) :
    Action.createTSRCall t.txnId State.COMMITTED ∈ (t.Commit env).trace ∧
    (env.createTSRErr ≠ none →
      (t.Commit env).result = some "transaction is aborted by other transaction" ∧
      Action.abortAsync ∈ (t.Commit env).trace ∧
      ∀ ds b, Action.commitCall ds b ∉ (t.Commit env).trace) ∧
    (env.createTSRErr = none → (t.Commit env).result = none) := by
  have hfold : prepareFold env.prepareErr t.dataStoreMap = none :=
    prepareFold_eq_none _ _ hp
  cases hcr : env.createTSRErr with
  | some e =>
    simp [Transaction.Commit, SetState, allowedTransition, hs, hro, hct, hfold, hcr]
  | none =>
    cases hal : env.asyncLevel <;>
      simp [Transaction.Commit, SetState, allowedTransition, hs, hro, hct, hfold,
        hcr, hal]

/-- C1 witness: on a concrete two-participant transaction whose prepares
succeed and whose `CreateTSR` fails, `Commit` invoked the sync point,
returned the racing-TSR error and started an asynchronous `Abort`. -/
theorem commit_sync_point_witness :
    txnC1.state = State.STARTED ∧ txnC1.isReadOnly = false ∧
    Action.createTSRCall txnC1.txnId State.COMMITTED ∈ (txnC1.Commit envC1).trace ∧
    (txnC1.Commit envC1).result = some "transaction is aborted by other transaction" ∧
    Action.abortAsync ∈ (txnC1.Commit envC1).trace := by
  have h := commit_sync_point txnC1 envC1 100 rfl rfl rfl (fun ds _ => rfl)
  have h2 := h.2.1 (by decide)
  exact ⟨rfl, rfl, h.1, h2.1, h2.2.1⟩

/-- C2 counterexample: with participants ["A", "B"] both failing Prepare
(with "errA" and "errB" in iteration order), `Transaction.Commit` returns
"prepare phase failed: errB" — the last recorded error, not the first one as
the claim states. -/
theorem commit_prepare_error_counterexample :
    envC2.prepareErr "A" = some "errA" ∧
    txnC2.dataStoreMap = ["A", "B"] ∧
    (txnC2.Commit envC2).result = some "prepare phase failed: errB" ∧
    (txnC2.Commit envC2).result ≠ some "prepare phase failed: errA" := by
  refine ⟨rfl, rfl, rfl, by decide⟩

/-- C2 (amended): if any participant Prepare fails during
`Transaction.Commit`, the coordinator records the LAST such error in
iteration order (each failure overwrites the recorded cause), treats the
prepare phase as failed, starts an `Abort` asynchronously, and returns the
recorded error wrapped as "prepare phase failed: ..."; every participant is
still prepared (no early exit), and neither `CreateTSR` nor any participant
commit is invoked. -/
theorem commit_prepare_failure (t : Transaction) (env : CommitEnv)
    (ct : Int) (cause : String)
    (hs : t.state = State.STARTED) (hro : t.isReadOnly = false)
    (hct : env.commitTime = Except.ok ct)
    (hc : prepareFold env.prepareErr t.dataStoreMap = some cause) :
    (t.Commit env).result = some ("prepare phase failed: " ++ cause) ∧
    Action.abortAsync ∈ (t.Commit env).trace ∧
    (∀ ds ∈ t.dataStoreMap, Action.prepareCall ds ∈ (t.Commit env).trace) ∧
    (∀ tid st, Action.createTSRCall tid st ∉ (t.Commit env).trace) ∧
    (∀ ds b, Action.commitCall ds b ∉ (t.Commit env).trace) := by
  simp [Transaction.Commit, SetState, allowedTransition, hs, hro, hct, hc]

/-- C2 witness: on the concrete two-failure transaction the recorded cause
is "errB", the returned error wraps it, the abort is asynchronous and no
`CreateTSR` happens. -/
theorem commit_prepare_failure_witness :
    prepareFold envC2.prepareErr txnC2.dataStoreMap = some "errB" ∧
    (txnC2.Commit envC2).result = some ("prepare phase failed: " ++ "errB") ∧
    Action.abortAsync ∈ (txnC2.Commit envC2).trace ∧
    (∀ tid st, Action.createTSRCall tid st ∉ (txnC2.Commit envC2).trace) := by
  have h := commit_prepare_failure txnC2 envC2 100 "errB" rfl rfl rfl rfl
  exact ⟨rfl, h.1, h.2.1, h.2.2.2.1⟩

/-- C3: once `CreateTSR` has succeeded, `Transaction.Commit` returns nil
whatever the participant `Commit()` errors and the `DeleteTSR` error are
(the environment leaves them unconstrained and the code discards them); with
AsyncLevel 0 the trace ends with awaited participant commits followed by an
awaited `DeleteTSR`; with AsyncLevel 1 the commits are awaited but the
`DeleteTSR` is fire-and-forget; with AsyncLevel 2 both the commits and the
`DeleteTSR` are fire-and-forget. -/
theorem commit_after_sync_point (t : Transaction) (env : CommitEnv) (ct : Int)
    (hs : t.state = State.STARTED) (hro : t.isReadOnly = false)
    (hct : env.commitTime = Except.ok ct)
    (hp : ∀ ds ∈ t.dataStoreMap, env.prepareErr ds = none)
    (hcr : env.createTSRErr = none) :
    (t.Commit env).result = none ∧
    (t.Commit env).txn.state = State.COMMITTED ∧
    (env.asyncLevel = AsyncLevel.zero →
      (t.Commit env).trace =
        Action.getTimeCall :: t.dataStoreMap.map Action.prepareCall ++
        [Action.createTSRCall t.txnId State.COMMITTED] ++
        t.dataStoreMap.map (fun ds => Action.commitCall ds false) ++
        [Action.deleteTSRCall false]) ∧
    (env.asyncLevel = AsyncLevel.one →
      (t.Commit env).trace =
        Action.getTimeCall :: t.dataStoreMap.map Action.prepareCall ++
        [Action.createTSRCall t.txnId State.COMMITTED] ++
        t.dataStoreMap.map (fun ds => Action.commitCall ds false) ++
        [Action.deleteTSRCall true]) ∧
    (env.asyncLevel = AsyncLevel.two →
      (t.Commit env).trace =
        Action.getTimeCall :: t.dataStoreMap.map Action.prepareCall ++
        [Action.createTSRCall t.txnId State.COMMITTED] ++
        t.dataStoreMap.map (fun ds => Action.commitCall ds true) ++
        [Action.deleteTSRCall true]) := by
  have hfold : prepareFold env.prepareErr t.dataStoreMap = none :=
    prepareFold_eq_none _ _ hp
  cases hal : env.asyncLevel <;>
    simp [Transaction.Commit, SetState, allowedTransition, hs, hro, hct, hfold,
      hcr, hal]

/-- C3 witness: on a concrete transaction whose participant commit and TSR
deletion both fail, `Commit` still returns nil, and at AsyncLevel 0 the
trace shows the awaited commit followed by the awaited deletion. -/
theorem commit_after_sync_point_witness :
    envC3.commitErr "Redis" = some "participant commit failed" ∧
    envC3.deleteTSRErr = some "delete tsr failed" ∧
    (txnC3.Commit envC3).result = none ∧
    (txnC3.Commit envC3).trace =
      Action.getTimeCall :: txnC3.dataStoreMap.map Action.prepareCall ++
      [Action.createTSRCall txnC3.txnId State.COMMITTED] ++
      txnC3.dataStoreMap.map (fun ds => Action.commitCall ds false) ++
      [Action.deleteTSRCall false] := by
  have h := commit_after_sync_point txnC3 envC3 100 rfl rfl rfl (fun ds _ => rfl) rfl
  exact ⟨rfl, rfl, h.1, h.2.2.1 rfl⟩

/-- C4: a read-only started transaction (its `isReadOnly` flag is true; the
last conjunct shows `Read` never changes the transaction record, so a
transaction that performed no Write or Delete keeps the flag) commits by
setting the state to COMMITTED and returning nil with an empty external
trace: no commit-timestamp fetch, no participant Prepare or Commit, and no
TSR creation. -/
theorem commit_read_only (t : Transaction) (env : CommitEnv)
    (hs : t.state = State.STARTED) (hro : t.isReadOnly = true) :
    (t.Commit env).result = none ∧
    (t.Commit env).txn.state = State.COMMITTED ∧
    (t.Commit env).trace = [] ∧
    (∀ dsName r, (t.Read dsName r).txn = t) := by
  refine ⟨?_, ?_, ?_, ?_⟩
  · simp [Transaction.Commit, SetState, allowedTransition, hs, hro]
  · simp [Transaction.Commit, SetState, allowedTransition, hs, hro]
  · simp [Transaction.Commit, SetState, allowedTransition, hs, hro]
  · intro dsName r
    simp only [Transaction.Read, CheckState, hs, if_pos]
    split <;> rfl

/-- C4 witness: a concrete read-only transaction commits with result nil,
state COMMITTED and an empty trace even though every external call in the
environment would fail. -/
theorem commit_read_only_witness :
    (txnC4.Commit envC4).result = none ∧
    (txnC4.Commit envC4).txn.state = State.COMMITTED ∧
    (txnC4.Commit envC4).trace = [] := by
  have h := commit_read_only txnC4 envC4 rfl rfl
  exact ⟨h.1, h.2.1, h.2.2.1⟩

/-- C5 counterexample: in the setting of
`TestRedisConnectionConditionalUpdateDoCreate`, a record exists at "item1"
whose stored version equals the version of the supplied item, yet
`ConditionalUpdate` with `doCreate = true` fails with "version mismatch"
instead of succeeding as the claim states for either value of doCreate. -/
theorem conditionalUpdate_doCreate_counterexample :
    storeGet [("item1", dbItemC5)] "item1" = some dbItemC5 ∧
    dbItemC5.version = cacheItemC5.version ∧
    ConditionalUpdate [("item1", dbItemC5)] "item1" cacheItemC5 true =
      Except.error "version mismatch" := by
  refine ⟨rfl, rfl, rfl⟩

/-- C5 (amended): `ConditionalUpdate(key, item, doCreate)` behaves as
follows. With `doCreate = false`: if a record exists and its stored version
equals the version of the item, the update succeeds and the stored version
becomes `version + 1`, which is returned; if no record exists, or the stored
version differs, it fails with "version mismatch". With `doCreate = true`
the call is insert-if-absent only: if no record exists the item is inserted
with its version incremented by one; if a record exists the call fails with
"version mismatch" regardless of the versions. Failures leave the store
unchanged. -/
theorem conditionalUpdate_semantics (store : Store) (key : String)
    (item : DataItem) (doCreate : Bool) :
    (∀ stored, storeGet store key = some stored →
      (doCreate = true →
        ConditionalUpdate store key item doCreate = Except.error "version mismatch") ∧
      (doCreate = false → stored.version = item.version →
        ConditionalUpdate store key item doCreate =
          Except.ok (item.version + 1,
            storeSet store key { item with version := item.version + 1 })) ∧
      (doCreate = false → stored.version ≠ item.version →
        ConditionalUpdate store key item doCreate = Except.error "version mismatch")) ∧
    (storeGet store key = none →
      (doCreate = true →
        ConditionalUpdate store key item doCreate =
          Except.ok (item.version + 1,
            (key, { item with version := item.version + 1 }) :: store)) ∧
      (doCreate = false →
        ConditionalUpdate store key item doCreate = Except.error "version mismatch")) := by
  constructor
  · intro stored hg
    refine ⟨?_, ?_, ?_⟩
    · intro hdc
      subst hdc
      simp [ConditionalUpdate, hg]
    · intro hdc hv
      subst hdc
      simp [ConditionalUpdate, hg, hv]
    · intro hdc hv
      subst hdc
      simp [ConditionalUpdate, hg, hv]
  · intro hg
    constructor
    · intro hdc
      subst hdc
      simp [ConditionalUpdate, hg]
    · intro hdc
      subst hdc
      simp [ConditionalUpdate, hg]

/-- C5 witness: an absent key with `doCreate = false` fails with "version
mismatch", and a matching-version update with `doCreate = false` succeeds,
storing and returning version 2. -/
theorem conditionalUpdate_semantics_witness :
    ConditionalUpdate [] "k1" cacheItemC5 false = Except.error "version mismatch" ∧
    ConditionalUpdate [("item1", dbItemC5)] "item1" cacheItemC5 false =
      Except.ok (2, [("item1", { cacheItemC5 with version := 2 })]) := by
  have h1 := ((conditionalUpdate_semantics [] "k1" cacheItemC5 false).2 rfl).2 rfl
  have h2 := ((conditionalUpdate_semantics [("item1", dbItemC5)] "item1" cacheItemC5
    false).1 dbItemC5 rfl).2.1 rfl rfl
  exact ⟨h1, h2⟩

/-- C6: whenever the transition to ABORTED is allowed (the state is STARTED
or COMMITTED), `Transaction.Abort` returns nil, sets the state to ABORTED,
writes an ABORTED TSR and calls `Abort(hasCommitted)` on every participant
with `hasCommitted` true exactly when the state before the call was
COMMITTED; the environment (TSR-write and participant-abort errors) is
unconstrained because the code discards those errors. -/
theorem abort_behavior (t : Transaction) (env : AbortEnv)
    (h : t.state = State.STARTED ∨ t.state = State.COMMITTED) :
    (t.Abort env).result = none ∧
    (t.Abort env).txn.state = State.ABORTED ∧
    (t.Abort env).trace =
      AbortAction.writeTSRCall t.txnId State.ABORTED ::
        t.dataStoreMap.map
          (fun ds => AbortAction.dsAbortCall ds (decide (t.state = State.COMMITTED))) := by
  rcases h with h | h <;>
    simp [Transaction.Abort, SetState, allowedTransition, h]

/-- C6 witness: aborting a concrete started transaction returns nil even
though the TSR write and both participant aborts fail; the trace shows the
ABORTED TSR write and `Abort(false)` on each participant. -/
theorem abort_behavior_witness :
    envC6.writeTSRErr = some "write tsr failed" ∧
    (txnC6.Abort envC6).result = none ∧
    (txnC6.Abort envC6).txn.state = State.ABORTED ∧
    (txnC6.Abort envC6).trace =
      [AbortAction.writeTSRCall "txn-c6" State.ABORTED,
       AbortAction.dsAbortCall "Redis" false,
       AbortAction.dsAbortCall "MongoDB" false] := by
  have h := abort_behavior txnC6 envC6 (Or.inl rfl)
  exact ⟨rfl, h.1, h.2.1, h.2.2⟩

set_option maxRecDepth 8000 in
/-- C7 (code bug): with the wall clock frozen at 5 ms — a non-decreasing
sequence of readings — the 54th `GetTime` call on a fresh `LocalTimeSource`
returns 5000001 while the 53rd returned 5000053: the logical-counter reset
at the saturation window moves the timestamp backwards when the physical
milliseconds have not advanced, violating the strict monotonicity the spec
states in section 4.1 and in property P7. -/
theorem clock_saturation_regression :
    List.Pairwise (· ≤ ·) (List.replicate 54 (5 : Int)) ∧
    (runClock { physicalTime := 5, logicalTime := 0 } (List.replicate 54 5)).get? 52 =
      some 5000053 ∧
    (runClock { physicalTime := 5, logicalTime := 0 } (List.replicate 54 5)).get? 53 =
      some 5000001 ∧
    (5000001 : Int) < 5000053 := by
  refine ⟨?_, by decide, by decide, by decide⟩
  have h : ∀ n : ℕ, List.Pairwise (· ≤ ·) (List.replicate n (5 : Int)) := by
    intro n
    induction n with
    | zero => simp
    | succ m ih =>
      simp only [List.replicate_succ, List.pairwise_cons]
      exact ⟨fun b hb => le_of_eq (List.eq_of_mem_replicate hb).symm, ih⟩
  exact h 54

/-- C8: in every state other than STARTED, `Transaction.Read`, `Write` and
`Delete` return the state-violation error, do not dispatch to any datastore
and leave the transaction record unchanged. -/
theorem ops_state_violation (t : Transaction) (dsName : String)
    (r : Option String) (h : t.state ≠ State.STARTED) :
    (t.Read dsName r).result = some "state violation" ∧
    (t.Read dsName r).dispatched = false ∧
    (t.Read dsName r).txn = t ∧
    (t.Write dsName r).result = some "state violation" ∧
    (t.Write dsName r).dispatched = false ∧
    (t.Write dsName r).txn = t ∧
    (t.Delete dsName r).result = some "state violation" ∧
    (t.Delete dsName r).dispatched = false ∧
    (t.Delete dsName r).txn = t := by
  simp [Transaction.Read, Transaction.Write, Transaction.Delete, CheckState, h]

/-- C8 witness: on a concrete aborted transaction all three operations fail
with the state-violation error and nothing is dispatched. -/
theorem ops_state_violation_witness :
    (txnC8.Read "Redis" none).result = some "state violation" ∧
    (txnC8.Write "Redis" none).result = some "state violation" ∧
    (txnC8.Delete "Redis" none).result = some "state violation" ∧
    (txnC8.Write "Redis" none).dispatched = false := by
  have h := ops_state_violation txnC8 "Redis" none (by decide)
  exact ⟨h.1, h.2.2.2.1, h.2.2.2.2.2.2.1, h.2.2.2.2.1⟩

/-- C9: every request whose path is not one of /ping, /read, /prepare,
/commit, /abort is answered with HTTP 404; on the four POST endpoints a
well-formed request whose handler fails is answered with HTTP 200 and a JSON
body with Status "Error" carrying the message in ErrMsg, while a success is
answered with HTTP 200 and Status "OK". -/
theorem facade_responses (req : FacadeRequest) :
    (req.path ∉ (["/ping", "/read", "/prepare", "/commit", "/abort"] : List String) →
      (serverRoute req).statusCode = 404 ∧
      (serverRoute req).plainBody = "Unsupported path") ∧
    (req.path ∈ (["/read", "/prepare", "/commit", "/abort"] : List String) →
      req.parseOk = true →
      (∀ e, req.handlerResult = Except.error e →
        (serverRoute req).statusCode = 200 ∧
        (serverRoute req).bodyStatus = "Error" ∧
        (serverRoute req).bodyErrMsg = e) ∧
      (∀ v, req.handlerResult = Except.ok v →
        (serverRoute req).statusCode = 200 ∧
        (serverRoute req).bodyStatus = "OK")) := by
  obtain ⟨p, po, hr⟩ := req
  constructor
  · intro hnot
    simp only [List.mem_cons, List.not_mem_nil, or_false, not_or] at hnot
    obtain ⟨h1, h2, h3, h4, h5⟩ := hnot
    simp [serverRoute, h1, h2, h3, h4, h5]
  · intro hmem hparse
    simp only [List.mem_cons, List.not_mem_nil, or_false] at hmem
    have hp2 : po = true := hparse
    subst hp2
    constructor
    · intro e he
      have he2 : hr = Except.error e := he
      subst he2
      rcases hmem with rfl | rfl | rfl | rfl <;>
        simp [serverRoute, readHandler, prepareHandler, commitHandler, abortHandler]
    · intro v hv
      have hv2 : hr = Except.ok v := hv
      subst hv2
      rcases hmem with rfl | rfl | rfl | rfl <;>
        simp [serverRoute, readHandler, prepareHandler, commitHandler, abortHandler]

/-- C9 witness: a request to "/unknown" is answered 404, and a well-formed
read request whose handler fails with "key not found" is answered 200 with
Status "Error" and that message in ErrMsg. -/
theorem facade_responses_witness :
    (serverRoute reqC9bad).statusCode = 404 ∧
    (serverRoute reqC9err).statusCode = 200 ∧
    (serverRoute reqC9err).bodyStatus = "Error" ∧
    (serverRoute reqC9err).bodyErrMsg = "key not found" := by
  have h1 := (facade_responses reqC9bad).1 (by decide)
  have h2 := ((facade_responses reqC9err).2 (by decide) rfl).1 "key not found" rfl
  exact ⟨h1.1, h2.1, h2.2.1, h2.2.2⟩

/-- C10: calling `Write` or `Delete` with a datastore name not in the map
returns "datastore not found" without dispatching, but still sets
`isReadOnly = false` (and `Write` also increments `writeCount`, while
`Delete` does not); a subsequent `Commit` of the transaction therefore skips
the read-only fast path: it fetches the commit timestamp, runs Prepare on
every participant, and invokes `CreateTSR`. -/
theorem write_missing_datastore (t : Transaction) (env : CommitEnv)
    (dsName : String) (r : Option String) (ct : Int)
    (hs : t.state = State.STARTED)
    (hd : t.dataStoreMap.contains dsName = false)
    (hct : env.commitTime = Except.ok ct)
    (hp : ∀ ds ∈ t.dataStoreMap, env.prepareErr ds = none) :
    (t.Write dsName r).result = some "datastore not found" ∧
    (t.Write dsName r).dispatched = false ∧
    (t.Write dsName r).txn.isReadOnly = false ∧
    (t.Write dsName r).txn.writeCount = t.writeCount + 1 ∧
    (t.Delete dsName r).result = some "datastore not found" ∧
    (t.Delete dsName r).dispatched = false ∧
    (t.Delete dsName r).txn.isReadOnly = false ∧
    (t.Delete dsName r).txn.writeCount = t.writeCount ∧
    Action.getTimeCall ∈ ((t.Write dsName r).txn.Commit env).trace ∧
    (∀ ds ∈ t.dataStoreMap,
      Action.prepareCall ds ∈ ((t.Write dsName r).txn.Commit env).trace) ∧
    Action.createTSRCall t.txnId State.COMMITTED ∈
      ((t.Write dsName r).txn.Commit env).trace := by
  have hd2 : ¬ dsName ∈ t.dataStoreMap := by simpa using hd
  have hfold : prepareFold env.prepareErr t.dataStoreMap = none :=
    prepareFold_eq_none _ _ hp
  have hw : (t.Write dsName r).txn =
      { t with isReadOnly := false, writeCount := t.writeCount + 1 } := by
    simp [Transaction.Write, CheckState, hs, hd2]
  refine ⟨?_, ?_, ?_, ?_, ?_, ?_, ?_, ?_, ?_, ?_, ?_⟩
  · simp [Transaction.Write, CheckState, hs, hd2]
  · simp [Transaction.Write, CheckState, hs, hd2]
  · simp [Transaction.Write, CheckState, hs, hd2]
  · simp [Transaction.Write, CheckState, hs, hd2]
  · simp [Transaction.Delete, CheckState, hs, hd2]
  · simp [Transaction.Delete, CheckState, hs, hd2]
  · simp [Transaction.Delete, CheckState, hs, hd2]
  · simp [Transaction.Delete, CheckState, hs, hd2]
  · rw [hw]
    cases hcr : env.createTSRErr <;> cases hal : env.asyncLevel <;>
      simp [Transaction.Commit, SetState, allowedTransition, hs, hct, hfold, hcr, hal]
  · intro ds hds
    rw [hw]
    cases hcr : env.createTSRErr <;> cases hal : env.asyncLevel <;>
      simp [Transaction.Commit, SetState, allowedTransition, hs, hct, hfold, hcr,
        hal] <;>
      exact hds
  · rw [hw]
    cases hcr : env.createTSRErr <;> cases hal : env.asyncLevel <;>
      simp [Transaction.Commit, SetState, allowedTransition, hs, hct, hfold, hcr, hal]

/-- C10 witness: writing to the absent participant "MongoDB" of a concrete
transaction fails with "datastore not found" yet flips `isReadOnly` and
bumps `writeCount`, and the subsequent `Commit` fetches the timestamp and
creates the TSR instead of taking the read-only fast path. -/
theorem write_missing_datastore_witness :
    (txnC10.Write "MongoDB" none).result = some "datastore not found" ∧
    (txnC10.Write "MongoDB" none).txn.isReadOnly = false ∧
    (txnC10.Write "MongoDB" none).txn.writeCount = 1 ∧
    Action.getTimeCall ∈ (((txnC10.Write "MongoDB" none).txn).Commit envC10).trace ∧
    Action.createTSRCall "txn-c10" State.COMMITTED ∈
      (((txnC10.Write "MongoDB" none).txn).Commit envC10).trace := by
  have h := write_missing_datastore txnC10 envC10 "MongoDB" none 100 rfl (by decide)
    rfl (fun ds _ => rfl)
  exact ⟨h.1, h.2.2.1, h.2.2.2.1, h.2.2.2.2.2.2.2.2.1, h.2.2.2.2.2.2.2.2.2.2⟩

end VanillaIcecream
